import Mathlib

/-!
Verification development for the DeepScanRx conversational analytics
assistant.  The definitions below are a shallow embedding of the
orchestration pipeline found in the repository:

* `DeepScanRxAgent` (`src/unnamed/part_001`): `processQuery`,
  `generatePythonCode` (its system-prompt template), `executePythonCode`
  (temporary-script lifecycle), `generateResponse`.
* The express chat route `POST /api/assistant/chat`
  (`src/server/index.cjs`, lines 352-398).
* The Netlify `ai-chat` handler (`src/netlify/functions/ai-chat.ts`).

External effects (OpenAI calls, the Python subprocess, the filesystem)
are made explicit: outcome-valued parameters stand for the external
calls, and the scripts directory is a list of file names threaded
through `executePythonCode`.
-/

/-- A conversation turn, mirroring the objects pushed onto
`this.conversationHistory` in `src/unnamed/part_001`: user turns carry
`role`, `content`, `timestamp`; assistant turns additionally carry
`pythonCode` and `results`. -/
structure Turn where
  role : String
  content : String
  timestamp : String
  pythonCode : Option String
  results : Option String
deriving DecidableEq, Repr

/-- The user turn pushed at the start of `processQuery`
(`src/unnamed/part_001`, lines 34-38). -/
def mkUserTurn (q t : String) : Turn :=
  { role := "user", content := q, timestamp := t, pythonCode := none, results := none }

/-- The assistant turn pushed on the success path of `processQuery`
(lines 50-56). -/
def mkAssistantTurn (resp t code results : String) : Turn :=
  { role := "assistant", content := resp, timestamp := t,
    pythonCode := some code, results := some results }

/-- The static schema held in `this.context.dataSchema`
(`src/unnamed/part_001`, lines 16-19). -/
structure DataSchema where
  patients : List String
  inventory : List String
deriving DecidableEq, Repr

def defaultSchema : DataSchema :=
  { patients := ["patient_id", "age", "gender", "diagnosis", "medications",
                 "admission_date", "discharge_date"],
    inventory := ["drug_name", "quantity", "unit_cost", "expiry_date",
                  "supplier", "category"] }

/-- `this.conversationHistory.slice(-4)`: the last four turns (the whole
history when it is shorter). -/
def recentWindow (hist : List Turn) : List Turn :=
  hist.drop (hist.length - 4)

/-- JavaScript `Array.prototype.join(sep)`. -/
def joinSep (sep : String) : List String → String
  | [] => ""
  | [x] => x
  | x :: y :: xs => x ++ sep ++ joinSep sep (y :: xs)

/-- JavaScript `Array.prototype.join('\n')`. -/
def joinLines : List String → String :=
  joinSep "\n"

/-- The `Previous conversation context` block of the generation prompt:
`this.conversationHistory.slice(-4).map(msg => ...).join('\n')`
(`src/unnamed/part_001`, line 91). -/
def contextLines (hist : List Turn) : String :=
  joinLines ((recentWindow hist).map (fun msg => msg.role ++ ": " ++ msg.content))

/-- Everything of the `generatePythonCode` system prompt template
(`src/unnamed/part_001`, lines 74-95) that precedes the rendered
conversation-context block. -/
def promptHead (schema : DataSchema) (dbPath : String) : String :=
  "You are DeepScanRx, an AI assistant that generates Python code for healthcare data analysis.\n\nAvailable database tables and schema:\n- patients: "
    ++ joinSep ", " schema.patients
    ++ "\n- inventory: "
    ++ joinSep ", " schema.inventory
    ++ "\n\nDatabase path: " ++ dbPath
    ++ "\n\nGenerate Python code that:\n1. Connects to the SQLite database\n2. Analyzes the data based on the user\x27s query\n3. Returns structured results (JSON format when possible)\n4. Includes proper error handling\n5. Uses libraries like pandas, sqlite3, matplotlib, seaborn for analysis\n6. Saves any visualizations to files in the current directory\n\nPrevious conversation context:\n"

/-- Template text between the context block and the verbatim query. -/
def promptMid : String := "\n\nUser Query: "

/-- Template text after the verbatim query. -/
def promptTail : String :=
  "\n\nReturn ONLY the Python code, no explanations or markdown formatting."

/-- The system prompt template of `generatePythonCode`
(`src/unnamed/part_001`, lines 74-95), rendered byte for byte. -/
def buildSystemPrompt (schema : DataSchema) (hist : List Turn) (userQuery dbPath : String) : String :=
  promptHead schema dbPath ++ contextLines hist ++ promptMid ++ userQuery ++ promptTail

/-- The exact prompt handed to the code-generation model inside
`processQuery`: the user turn has already been pushed, so the history
seen by `generatePythonCode` is `hist ++ [mkUserTurn q t1]`. -/
def promptForGeneration (hist : List Turn) (q t1 dbPath : String) : String :=
  buildSystemPrompt defaultSchema (hist ++ [mkUserTurn q t1]) q dbPath

/-- The value returned by `processQuery` (`src/unnamed/part_001`,
lines 58-69).  The fresh `conversationId` of the success branch is an
external random value and is not modelled. -/
structure QueryResult where
  response : String
  pythonCode : Option String
  results : Option String
  error : Bool
deriving DecidableEq, Repr

/-- The catch-all result of `processQuery` (lines 64-70). -/
def errorResult (msg : String) : QueryResult :=
  { response := "I encountered an error while processing your query: " ++ msg,
    pythonCode := none, results := none, error := true }

/-- `DeepScanRxAgent.processQuery` (`src/unnamed/part_001`, lines 31-71)
over an explicit history.  The three awaited external calls are
parameters: `gm` is the code-generation model applied to the built
system prompt, `em` is `executePythonCode` applied to the generated
code (its filesystem side is modelled separately below), `sm` is the
response-synthesis model applied to the query and the execution output.
A `.error` from any of them is the promise rejection caught by the
surrounding `try`/`catch`, which returns the fallback result without
touching the history again. -/
def processQuery (hist : List Turn) (userQuery dbPath t1 t2 : String)
    (gm em : String → Except String String)
    (sm : String → String → Except String String) :
    QueryResult × List Turn :=
  let hist1 := hist ++ [mkUserTurn userQuery t1]
  match gm (buildSystemPrompt defaultSchema hist1 userQuery dbPath) with
  | .error e => (errorResult e, hist1)
  | .ok code =>
    match em code with
    | .error e => (errorResult e, hist1)
    | .ok results =>
      match sm userQuery results with
      | .error e => (errorResult e, hist1)
      | .ok resp =>
        ({ response := resp, pythonCode := some code, results := some results,
           error := false },
         hist1 ++ [mkAssistantTurn resp t2 code results])

/-- File name of the temporary script artifact inside the scripts
directory: `` `script_${scriptId}.py` `` (`src/unnamed/part_001`,
line 112). -/
def scriptFileName (scriptId : String) : String :=
  "script_" ++ scriptId ++ ".py"

/-- Outcome of the `PythonShell.run` callback: `ok` carries the
(possibly absent) array of output lines, `err` is a non-zero exit, a
timeout imposed by the environment, or a launch failure — all of which
reach the callback (or throw) as `err` and reject the promise. -/
inductive RunOutcome where
  | ok : Option (List String) → RunOutcome
  | err : String → RunOutcome
deriving DecidableEq, Repr

/-- `DeepScanRxAgent.executePythonCode` (`src/unnamed/part_001`,
lines 110-144).  The scripts directory is the list `fs` of file names
present; `writeFileSync` prepends the script, the success path
`unlinkSync`s it, and the catch branch `unlinkSync`s it only after an
`existsSync` check, then rethrows.  Returns the promise outcome and the
directory contents after the call. -/
def executePythonCode (fs : List String) (scriptId : String) (pythonCode : String)
    (run : RunOutcome) : Except String String × List String :=
  let scriptPath := scriptFileName scriptId
  let fs1 := scriptPath :: fs
  match run with
  | .ok lines =>
      (.ok (match lines with | some ls => joinLines ls | none => ""),
       fs1.erase scriptPath)
  | .err e =>
      (.error e, if scriptPath ∈ fs1 then fs1.erase scriptPath else fs1)

/-- The options object passed to `PythonShell.run`
(`src/unnamed/part_001`, lines 120-124).  The record carries a
`timeout` field so that any configured wall-clock bound is visible;
the source configures none — the call site sets only `mode`,
`pythonOptions` and `scriptPath`. -/
structure PythonShellOptions where
  mode : Option String
  pythonOptions : Option (List String)
  scriptPath : Option String
  timeout : Option Nat
deriving DecidableEq, Repr

/-- The concrete options built at the `PythonShell.run` call site. -/
def runOptions (scriptsDir : String) : PythonShellOptions :=
  { mode := some "text", pythonOptions := some ["-u"],
    scriptPath := some scriptsDir, timeout := none }

/-- JavaScript `String.prototype.trim()`: strip whitespace from both
ends, modelled executably over the character list. -/
def jsTrim (s : String) : String :=
  ⟨((s.data.dropWhile Char.isWhitespace).reverse.dropWhile Char.isWhitespace).reverse⟩

/-- Does the character list `s` start with `sub`? -/
def startsWithChars : List Char → List Char → Bool
  | _, [] => true
  | [], _ :: _ => false
  | c :: cs, d :: ds => c == d && startsWithChars cs ds

/-- Does `sub` occur as a contiguous run inside `s`? -/
def occursIn : List Char → List Char → Bool
  | [], sub => sub.isEmpty
  | c :: rest, sub => startsWithChars (c :: rest) sub || occursIn rest sub

/-- JavaScript substring test `s.includes(sub)`, modelled executably
over the character lists. -/
def containsSub (s sub : String) : Bool :=
  occursIn s.data sub.data

/-- JavaScript `String.prototype.toLowerCase()` (over the ASCII range
used by the source), modelled executably over the character list. -/
def jsToLower (s : String) : String :=
  ⟨s.data.map Char.toLower⟩

/-- `const openai = openaiApiKey ? new OpenAI(...) : null` in
`src/netlify/functions/ai-chat.ts` (line 10): the client exists iff the
environment variable is present and truthy (non-empty). -/
def openaiConfigured (envKey : Option String) : Bool :=
  match envKey with
  | none => false
  | some k => !(k == "")

/-- `process.env.OPENAI_API_KEY || 'your-openai-api-key-here'`: the key
the `DeepScanRxAgent` constructor hands to the OpenAI client
(`src/unnamed/part_001`, line 10). -/
def agentApiKey (envKey : Option String) : String :=
  match envKey with
  | none => "your-openai-api-key-here"
  | some k => if k == "" then "your-openai-api-key-here" else k

/-- The keyword-matched canned reply of the no-OpenAI branch of the
Netlify handler (`src/netlify/functions/ai-chat.ts`, lines 53-63). -/
def mockResponse (message : String) : String :=
  let lower := jsToLower message
  if containsSub lower "inventory" then
    "Based on your current inventory data, I recommend focusing on drugs with low stock levels. Would you like me to generate a detailed inventory optimization report?"
  else if containsSub lower "patient" then
    "I can help analyze patient data patterns. What specific insights are you looking for regarding patient medications or outcomes?"
  else if containsSub lower "cost" then
    "Cost analysis shows potential savings through better inventory management. I can generate a cost optimization analysis if needed."
  else if containsSub lower "predict" then
    "Predictive analytics indicate seasonal variations in drug demand. I can create forecasting models based on your historical data."
  else
    "I\x27m analyzing your request..."

/-- Suggestion list of the Netlify no-OpenAI branch and of the express
chat route (identical five entries). -/
def mockSuggestions : List String :=
  ["Analyze low stock items", "Predict drug demand trends",
   "Find cost-saving opportunities", "Generate comprehensive report",
   "Show patient medication patterns"]

/-- Suggestion list of the Netlify success branch (lines 127-133). -/
def liveSuggestions : List String :=
  ["Show me inventory optimization opportunities",
   "Predict drug demand for next quarter",
   "Find cost-saving opportunities in my data",
   "Generate a comprehensive analytics report",
   "Analyze patient medication patterns"]

/-- Suggestion list of the Netlify catch branch (lines 153-157). -/
def basicSuggestions : List String :=
  ["Show inventory summary", "List recent uploads", "Display basic statistics"]

/-- The `response` object of a chat reply body. -/
structure ChatPayload where
  text : String
  action : Option String
  suggestions : List String
  errorFlag : Bool
deriving DecidableEq, Repr

/-- Response body shapes used by the two chat endpoints. -/
inductive RespBody where
  | empty : RespBody
  | err : String → RespBody
  | chat : ChatPayload → RespBody
deriving DecidableEq, Repr

structure HttpResponse where
  statusCode : Nat
  body : RespBody
deriving DecidableEq, Repr

/-- `completion.choices[0].message.content?.trim() || "I'm sorry, ..."`
(`src/netlify/functions/ai-chat.ts`, line 118). -/
def aiResponseText (content : Option String) : String :=
  match content with
  | none => "I\x27m sorry, I couldn\x27t process your request."
  | some c => if jsTrim c == "" then "I\x27m sorry, I couldn\x27t process your request." else jsTrim c

/-- The Netlify `ai-chat` handler (`src/netlify/functions/ai-chat.ts`,
lines 12-165).  `message` is the parsed body field (`none` for a
missing/undefined field), `modelOutcome` the outcome of the chain of
awaited calls of the `try` block (supabase reads and the OpenAI
completion): `.ok` carries the optional message content of the first
choice, `.error` is any thrown error, answered by the catch branch. -/
def aiChatHandler (envKey : Option String) (httpMethod : String)
    (message : Option String) (modelOutcome : Except String (Option String)) :
    HttpResponse :=
  if httpMethod == "OPTIONS" then { statusCode := 200, body := .empty }
  else if httpMethod != "POST" then
    { statusCode := 405, body := .err "Method not allowed" }
  else
    match message with
    | none => { statusCode := 400, body := .err "Message is required" }
    | some m =>
      if jsTrim m == "" then { statusCode := 400, body := .err "Message is required" }
      else if !(openaiConfigured envKey) then
        { statusCode := 200,
          body := .chat { text := mockResponse m, action := some "analysis_complete",
                          suggestions := mockSuggestions, errorFlag := false } }
      else
        match modelOutcome with
        | .ok content =>
            { statusCode := 200,
              body := .chat { text := aiResponseText content,
                              action := some "analysis_complete",
                              suggestions := liveSuggestions, errorFlag := false } }
        | .error e =>
            { statusCode := 500,
              body := .chat { text := "I\x27m currently experiencing technical difficulties: "
                                ++ e ++ ". Please try a simpler query or check back later.",
                              action := none, suggestions := basicSuggestions,
                              errorFlag := true } }

/-- The express route `POST /api/assistant/chat`
(`src/server/index.cjs`, lines 352-398).  A missing or
whitespace-only `message` is answered 400 before the agent is invoked;
otherwise `aiAgent.processQuery` runs and its result is sent with
`res.json` (status 200), `action` being `null` exactly when the agent
reported an absorbed error.  `processQuery` never rejects, so the
route's `.catch` branch is unreachable. -/
def assistantChat (message : Option String) (hist : List Turn)
    (dbPath t1 t2 : String) (gm em : String → Except String String)
    (sm : String → String → Except String String) :
    HttpResponse × List Turn :=
  match message with
  | none => ({ statusCode := 400, body := .err "Message is required" }, hist)
  | some m =>
    if jsTrim m == "" then
      ({ statusCode := 400, body := .err "Message is required" }, hist)
    else
      let pr := processQuery hist m dbPath t1 t2 gm em sm
      ({ statusCode := 200,
         body := .chat { text := pr.1.response,
                         action := if pr.1.error then none else some "analysis_complete",
                         suggestions := mockSuggestions, errorFlag := pr.1.error } },
       pr.2)

/-! ### Helper lemmas -/

/-- Appending one turn and taking the `slice(-4)` window keeps that
turn as the final element; at most three older turns survive. -/
theorem recentWindow_concat (hist : List Turn) (u : Turn) :
    recentWindow (hist ++ [u]) = hist.drop (hist.length - 3) ++ [u] := by
  unfold recentWindow
  have h1 : (hist ++ [u]).length - 4 = hist.length - 3 := by
    simp [List.length_append]
  rw [h1, List.drop_append_of_le_length (Nat.sub_le _ _)]

/-- A `join` over a list ending in `y` ends in `y`. -/
theorem joinSep_concat (sep y : String) :
    ∀ xs : List String, ∃ p, joinSep sep (xs ++ [y]) = p ++ y
  | [] => ⟨"", by simp [joinSep]⟩
  | [x] => ⟨x ++ sep, by simp [joinSep, String.append_assoc]⟩
  | x :: z :: zs => by
    obtain ⟨p, hp⟩ := joinSep_concat sep y (z :: zs)
    refine ⟨x ++ sep ++ p, ?_⟩
    have : joinSep sep ((x :: z :: zs) ++ [y]) = x ++ sep ++ joinSep sep ((z :: zs) ++ [y]) := by
      simp [joinSep]
    rw [this, hp]
    simp [String.append_assoc]

/-! ### Claim theorems -/

/-- C3: on every exit path of `executePythonCode` — normal completion,
execution error, or an exception raised while launching — the temporary
script artifact written for that execution identifier no longer exists
in the scripts directory after the call returns. -/
theorem executePythonCode_cleanup (fs : List String) (scriptId pythonCode : String)
    (run : RunOutcome) (hfresh : scriptFileName scriptId ∉ fs) :
    scriptFileName scriptId ∉ (executePythonCode fs scriptId pythonCode run).2 := by
  cases run with
  | ok lines => simpa [executePythonCode] using hfresh
  | err e => simpa [executePythonCode] using hfresh

/-- Witness for C3: a concrete successful execution leaves the scripts
directory without the artifact. -/
theorem executePythonCode_cleanup_witness :
    scriptFileName "1f2e" ∉ ["other.py"]
    ∧ scriptFileName "1f2e" ∉
        (executePythonCode ["other.py"] "1f2e" "print(1)" (.ok (some ["hi"]))).2 :=
  ⟨by decide,
   executePythonCode_cleanup ["other.py"] "1f2e" "print(1)" (.ok (some ["hi"]))
     (by decide)⟩

/-- C4 counterexample: the options the executor passes to
`PythonShell.run` carry no wall-clock timeout at all, refuting the
claim that every generated script runs under a hard timeout. -/
theorem runOptions_timeout_counterexample :
    ¬ ∃ t : Nat, (runOptions "generated_scripts").timeout = some t := by
  intro h
  obtain ⟨t, ht⟩ := h
  simp [runOptions] at ht

/-- C4 amended: the executor launches every generated script with no
configured timeout — the `PythonShell.run` options set only text mode,
unbuffered output and the script directory, so a long-running script is
never terminated by the executor. -/
theorem runOptions_no_timeout (scriptsDir : String) :
    (runOptions scriptsDir).timeout = none
    ∧ (runOptions scriptsDir).mode = some "text"
    ∧ (runOptions scriptsDir).pythonOptions = some ["-u"]
    ∧ (runOptions scriptsDir).scriptPath = some scriptsDir := by
  simp [runOptions]

/-- C1 counterexample: when the generated script fails to execute, the
pipeline does not proceed to synthesis — the synthesizer output
("SYNTHESIZED" here) never reaches the user; the catch-all answers with
the generic error text instead. -/
theorem exec_failure_skips_synthesis_counterexample :
    (processQuery [] "list drugs" "db.sqlite" "t1" "t2"
        (fun _ => .ok "print(1)") (fun _ => .error "boom")
        (fun _ _ => .ok "SYNTHESIZED")).1.response
      = "I encountered an error while processing your query: boom"
    ∧ ¬ ((processQuery [] "list drugs" "db.sqlite" "t1" "t2"
        (fun _ => .ok "print(1)") (fun _ => .error "boom")
        (fun _ _ => .ok "SYNTHESIZED")).1.response = "SYNTHESIZED") := by
  constructor
  · rfl
  · decide

/-- C1 amended: when the generated script fails to execute, the
rejection propagates to the `processQuery` catch-all, which returns the
generic error message containing the error text, without invoking the
Response Synthesizer and without appending an assistant turn. -/
theorem processQuery_exec_failure (hist : List Turn)
    (q dbPath t1 t2 code e : String) (gm em : String → Except String String)
    (sm : String → String → Except String String)
    (hg : gm (promptForGeneration hist q t1 dbPath) = .ok code)
    (he : em code = .error e) :
    (processQuery hist q dbPath t1 t2 gm em sm).1 = errorResult e
    ∧ (processQuery hist q dbPath t1 t2 gm em sm).2 = hist ++ [mkUserTurn q t1] := by
  have hg' : gm (buildSystemPrompt defaultSchema (hist ++ [mkUserTurn q t1]) q dbPath)
      = .ok code := hg
  simp [processQuery, hg', he]

/-- Witness for C1 (amended): concrete failing execution. -/
theorem processQuery_exec_failure_witness :
    (processQuery [] "q" "db" "t1" "t2" (fun _ => .ok "print(1)")
        (fun _ => .error "exit 1") (fun _ _ => .ok "x")).1 = errorResult "exit 1"
    ∧ (processQuery [] "q" "db" "t1" "t2" (fun _ => .ok "print(1)")
        (fun _ => .error "exit 1") (fun _ _ => .ok "x")).2 = [] ++ [mkUserTurn "q" "t1"] :=
  processQuery_exec_failure [] "q" "db" "t1" "t2" "print(1)" "exit 1"
    (fun _ => .ok "print(1)") (fun _ => .error "exit 1") (fun _ _ => .ok "x") rfl rfl

/-- C2 counterexample: on a generation failure the history receives the
user turn only — no completed assistant turn is appended. -/
theorem gen_failure_no_assistant_turn_counterexample :
    ((processQuery [] "list drugs" "db.sqlite" "t1" "t2"
        (fun _ => .error "model unavailable") (fun _ => .ok "")
        (fun _ _ => .ok "")).2.map Turn.role = ["user"])
    ∧ (processQuery [] "list drugs" "db.sqlite" "t1" "t2"
        (fun _ => .error "model unavailable") (fun _ => .ok "")
        (fun _ _ => .ok "")).1.error = true := by
  constructor
  · rfl
  · rfl

/-- C2 amended: on `GenerationFailure` the orchestrator returns a
user-visible fallback result (error flag set, error text embedded) with
no exception escaping, but it appends no assistant turn: the history
gains only the user turn of the failed query. -/
theorem processQuery_gen_failure (hist : List Turn)
    (q dbPath t1 t2 e : String) (gm em : String → Except String String)
    (sm : String → String → Except String String)
    (hg : gm (promptForGeneration hist q t1 dbPath) = .error e) :
    (processQuery hist q dbPath t1 t2 gm em sm).1 = errorResult e
    ∧ (processQuery hist q dbPath t1 t2 gm em sm).2 = hist ++ [mkUserTurn q t1] := by
  have hg' : gm (buildSystemPrompt defaultSchema (hist ++ [mkUserTurn q t1]) q dbPath)
      = .error e := hg
  simp [processQuery, hg']

/-- Witness for C2 (amended): concrete failing generation. -/
theorem processQuery_gen_failure_witness :
    (processQuery [] "q" "db" "t1" "t2" (fun _ => .error "rate limited")
        (fun _ => .ok "") (fun _ _ => .ok "")).1 = errorResult "rate limited"
    ∧ (processQuery [] "q" "db" "t1" "t2" (fun _ => .error "rate limited")
        (fun _ => .ok "") (fun _ _ => .ok "")).2 = [] ++ [mkUserTurn "q" "t1"] :=
  processQuery_gen_failure [] "q" "db" "t1" "t2" "rate limited"
    (fun _ => .error "rate limited") (fun _ => .ok "") (fun _ _ => .ok "") rfl

/-- C5 counterexample: a failed query (generation failure) leaves a
lone user turn, so after the next successfully completed query the
history holds three turns — an odd count — and its third (odd-position)
turn has role assistant. -/
theorem history_parity_counterexample :
    ((processQuery
        (processQuery [] "first" "db" "t1" "t2" (fun _ => .error "down")
          (fun _ => .ok "out") (fun _ _ => .ok "resp")).2
        "second" "db" "t3" "t4" (fun _ => .ok "code")
        (fun _ => .ok "out") (fun _ _ => .ok "resp")).2.map Turn.role
      = ["user", "user", "assistant"])
    ∧ ¬ ((processQuery
        (processQuery [] "first" "db" "t1" "t2" (fun _ => .error "down")
          (fun _ => .ok "out") (fun _ _ => .ok "resp")).2
        "second" "db" "t3" "t4" (fun _ => .ok "code")
        (fun _ => .ok "out") (fun _ _ => .ok "resp")).2.length % 2 = 0) := by
  constructor
  · rfl
  · decide

/-- C5 amended: provided every earlier query also completed
successfully — so the incoming history already has even length with
user turns at odd positions — a successfully completed query preserves
both properties: the history gains exactly one user and one assistant
turn. -/
theorem processQuery_success_parity (hist : List Turn)
    (q dbPath t1 t2 code results resp : String)
    (gm em : String → Except String String)
    (sm : String → String → Except String String)
    (heven : hist.length % 2 = 0)
    (huser : ∀ i, (hi : i < hist.length) → i % 2 = 0 → (hist.get ⟨i, hi⟩).role = "user")
    (hg : gm (promptForGeneration hist q t1 dbPath) = .ok code)
    (he : em code = .ok results)
    (hs : sm q results = .ok resp) :
    ((processQuery hist q dbPath t1 t2 gm em sm).2.length % 2 = 0)
    ∧ ∀ i, (hi : i < (processQuery hist q dbPath t1 t2 gm em sm).2.length) →
        i % 2 = 0 →
        ((processQuery hist q dbPath t1 t2 gm em sm).2.get ⟨i, hi⟩).role = "user" := by
  have hg' : gm (buildSystemPrompt defaultSchema (hist ++ [mkUserTurn q t1]) q dbPath)
      = .ok code := hg
  have hrw : (processQuery hist q dbPath t1 t2 gm em sm).2
      = hist ++ [mkUserTurn q t1, mkAssistantTurn resp t2 code results] := by
    simp [processQuery, hg', he, hs]
  rw [hrw]
  constructor
  · simp [List.length_append]
    omega
  · intro i hi hieven
    rw [List.get_eq_getElem]
    rcases Nat.lt_or_ge i hist.length with hlt | hge
    · rw [List.getElem_append_left hlt]
      have hu := huser i hlt hieven
      rw [List.get_eq_getElem] at hu
      exact hu
    · have hlen : i < hist.length + 2 := by
        have := hi
        simp [List.length_append] at this
        omega
      have hieq : i = hist.length := by omega
      rw [List.getElem_append_right hge]
      have hz : i - hist.length = 0 := by omega
      simp [hz, mkUserTurn]

/-- Witness for C5 (amended): a first successful query on the empty
history yields a two-turn history with the user turn first. -/
theorem processQuery_success_parity_witness :
    ((processQuery [] "show stock" "db" "t1" "t2" (fun _ => .ok "c")
        (fun _ => .ok "o") (fun _ _ => .ok "r")).2.length % 2 = 0)
    ∧ ∀ i, (hi : i < (processQuery [] "show stock" "db" "t1" "t2" (fun _ => .ok "c")
        (fun _ => .ok "o") (fun _ _ => .ok "r")).2.length) →
        i % 2 = 0 →
        ((processQuery [] "show stock" "db" "t1" "t2" (fun _ => .ok "c")
          (fun _ => .ok "o") (fun _ _ => .ok "r")).2.get ⟨i, hi⟩).role = "user" :=
  processQuery_success_parity [] "show stock" "db" "t1" "t2" "c" "o" "r"
    (fun _ => .ok "c") (fun _ => .ok "o") (fun _ _ => .ok "r")
    rfl (fun i hi _ => absurd hi (by simp)) rfl rfl rfl

/-- C6 counterexample: a model failure in the Netlify `ai-chat` handler
is answered with HTTP 500, not 200, even though it is a pipeline
failure rather than a transport fault. -/
theorem chat_failure_status_counterexample :
    (aiChatHandler (some "sk-test") "POST" (some "analyze inventory")
        (.error "rate limited")).statusCode = 500
    ∧ ¬ ((aiChatHandler (some "sk-test") "POST" (some "analyze inventory")
        (.error "rate limited")).statusCode = 200) := by
  constructor
  · rfl
  · decide

/-- C6 amended: the express chat route answers every absorbed
orchestrator failure with HTTP 200, apologetic text and a null action;
the Netlify handler instead answers a model failure with HTTP 500 —
whose body still carries apologetic text and a null action — so only
the express route restricts non-200 statuses to transport faults. -/
theorem chat_failure_status (hist : List Turn) (m dbPath t1 t2 e : String)
    (gm em : String → Except String String)
    (sm : String → String → Except String String)
    (hm : ¬ (jsTrim m = ""))
    (hfail : (processQuery hist m dbPath t1 t2 gm em sm).1.error = true) :
    (assistantChat (some m) hist dbPath t1 t2 gm em sm).1
      = { statusCode := 200,
          body := .chat { text := (processQuery hist m dbPath t1 t2 gm em sm).1.response,
                          action := none, suggestions := mockSuggestions,
                          errorFlag := true } }
    ∧ (aiChatHandler (some "sk-test") "POST" (some m) (.error e))
      = { statusCode := 500,
          body := .chat { text := "I\x27m currently experiencing technical difficulties: "
                            ++ e ++ ". Please try a simpler query or check back later.",
                          action := none, suggestions := basicSuggestions,
                          errorFlag := true } } := by
  constructor
  · simp [assistantChat, hm, hfail]
  · simp [aiChatHandler, openaiConfigured, hm]

/-- Witness for C6 (amended): a concrete generation failure through
both endpoints. -/
theorem chat_failure_status_witness :
    (assistantChat (some "hello") [] "db" "t1" "t2" (fun _ => .error "down")
        (fun _ => .ok "") (fun _ _ => .ok "")).1
      = { statusCode := 200,
          body := .chat { text := (processQuery [] "hello" "db" "t1" "t2"
                            (fun _ => .error "down") (fun _ => .ok "")
                            (fun _ _ => .ok "")).1.response,
                          action := none, suggestions := mockSuggestions,
                          errorFlag := true } }
    ∧ (aiChatHandler (some "sk-test") "POST" (some "hello") (.error "rate limited"))
      = { statusCode := 500,
          body := .chat { text := "I\x27m currently experiencing technical difficulties: "
                            ++ "rate limited" ++ ". Please try a simpler query or check back later.",
                          action := none, suggestions := basicSuggestions,
                          errorFlag := true } } :=
  chat_failure_status [] "hello" "db" "t1" "t2" "rate limited"
    (fun _ => .error "down") (fun _ => .ok "") (fun _ _ => .ok "")
    (by decide) rfl

/-- C7 counterexample: with the credential absent the agent behind the
express chat route does not fall back to canned keyword-matched
replies — its OpenAI client, built with the placeholder key, fails and
the request is answered with the absorbed error text and the error
flag set, not with the canned inventory reply. -/
theorem missing_key_fallback_counterexample :
    ((assistantChat (some "inventory") [] "db" "t1" "t2"
        (fun _ => .error "Incorrect API key provided") (fun _ => .ok "")
        (fun _ _ => .ok "")).1.body
      = .chat { text := "I encountered an error while processing your query: Incorrect API key provided",
                action := none, suggestions := mockSuggestions, errorFlag := true })
    ∧ ¬ ((assistantChat (some "inventory") [] "db" "t1" "t2"
        (fun _ => .error "Incorrect API key provided") (fun _ => .ok "")
        (fun _ _ => .ok "")).1.body
      = .chat { text := mockResponse "inventory", action := some "analysis_complete",
                suggestions := mockSuggestions, errorFlag := false }) := by
  constructor
  · rfl
  · decide

/-- C7 amended: only the Netlify handler switches to the deterministic
keyword-matched fallback when the credential is absent (every non-empty
message is answered 200 with the canned reply, whatever the external
world would have done); the agent constructor instead substitutes the
placeholder key `your-openai-api-key-here` and proceeds to call the
external model, so express chat requests are not served canned
replies. -/
theorem missing_key_fallback (m : String) (out : Except String (Option String))
    (hm : ¬ (jsTrim m = "")) :
    aiChatHandler none "POST" (some m) out
      = { statusCode := 200,
          body := .chat { text := mockResponse m, action := some "analysis_complete",
                          suggestions := mockSuggestions, errorFlag := false } }
    ∧ agentApiKey none = "your-openai-api-key-here" := by
  constructor
  · simp [aiChatHandler, openaiConfigured, hm]
  · rfl

/-- Witness for C7 (amended): the keyword branch on a concrete
message. -/
theorem missing_key_fallback_witness :
    aiChatHandler none "POST" (some "inventory") (.ok none)
      = { statusCode := 200,
          body := .chat { text := mockResponse "inventory",
                          action := some "analysis_complete",
                          suggestions := mockSuggestions, errorFlag := false } }
    ∧ agentApiKey none = "your-openai-api-key-here" :=
  missing_key_fallback "inventory" (.ok none) (by decide)

/-- C8: prompt construction is a pure function of its inputs — two
invocations with identical schema, identical recent-history windows,
identical user query and database path produce byte-identical prompt
text. -/
theorem buildSystemPrompt_pure (s : DataSchema) (h1 h2 : List Turn) (q dbPath : String)
    (hw : recentWindow h1 = recentWindow h2) :
    buildSystemPrompt s h1 q dbPath = buildSystemPrompt s h2 q dbPath := by
  simp [buildSystemPrompt, contextLines, hw]

/-- Witness for C8: two five-turn histories differing in their oldest
turn share the four-turn window and the full prompt text. -/
theorem buildSystemPrompt_pure_witness :
    buildSystemPrompt defaultSchema
        [mkUserTurn "a" "t0", mkUserTurn "w" "1", mkUserTurn "x" "2",
         mkUserTurn "y" "3", mkUserTurn "z" "4"] "q" "db"
      = buildSystemPrompt defaultSchema
        [mkUserTurn "b" "t9", mkUserTurn "w" "1", mkUserTurn "x" "2",
         mkUserTurn "y" "3", mkUserTurn "z" "4"] "q" "db" :=
  buildSystemPrompt_pure defaultSchema
    [mkUserTurn "a" "t0", mkUserTurn "w" "1", mkUserTurn "x" "2",
     mkUserTurn "y" "3", mkUserTurn "z" "4"]
    [mkUserTurn "b" "t9", mkUserTurn "w" "1", mkUserTurn "x" "2",
     mkUserTurn "y" "3", mkUserTurn "z" "4"] "q" "db" rfl

/-- C9: a whitespace-only chat message is rejected by both endpoints
with a 400 error body before the pipeline runs, and the conversation
history is left untouched. -/
theorem empty_message_rejected (m : String) (hist : List Turn)
    (dbPath t1 t2 : String) (gm em : String → Except String String)
    (sm : String → String → Except String String) (envKey : Option String)
    (modelOutcome : Except String (Option String))
    (hm : jsTrim m = "") :
    (assistantChat (some m) hist dbPath t1 t2 gm em sm)
      = ({ statusCode := 400, body := .err "Message is required" }, hist)
    ∧ aiChatHandler envKey "POST" (some m) modelOutcome
      = { statusCode := 400, body := .err "Message is required" } := by
  constructor
  · simp [assistantChat, hm]
  · simp [aiChatHandler, hm]

/-- Witness for C9: the three-space message. -/
theorem empty_message_rejected_witness :
    (assistantChat (some "   ") [] "db" "t1" "t2" (fun _ => .ok "")
        (fun _ => .ok "") (fun _ _ => .ok ""))
      = ({ statusCode := 400, body := .err "Message is required" }, [])
    ∧ aiChatHandler (some "sk-test") "POST" (some "   ") (.ok none)
      = { statusCode := 400, body := .err "Message is required" } :=
  empty_message_rejected "   " [] "db" "t1" "t2" (fun _ => .ok "")
    (fun _ => .ok "") (fun _ _ => .ok "") (some "sk-test") (.ok none) (by decide)

/-- C10: because `processQuery` pushes the user turn before building
the generation prompt, the `slice(-4)` window always ends with the
current user turn — leaving at most three genuinely earlier turns —
and the prompt text therefore contains the query twice: once inside
the rendered context block and once after `User Query:`. -/
theorem prompt_window_contains_query (hist : List Turn) (q t1 dbPath : String) :
    (recentWindow (hist ++ [mkUserTurn q t1])).getLast? = some (mkUserTurn q t1)
    ∧ (recentWindow (hist ++ [mkUserTurn q t1])).dropLast.length ≤ 3
    ∧ ∃ a b c : String, promptForGeneration hist q t1 dbPath = a ++ q ++ b ++ q ++ c := by
  have hw := recentWindow_concat hist (mkUserTurn q t1)
  refine ⟨?_, ?_, ?_⟩
  · rw [hw]
    exact List.getLast?_concat _
  · rw [hw, List.dropLast_concat]
    simp
    omega
  · obtain ⟨p, hp⟩ := joinSep_concat "\n" ("user" ++ ": " ++ q)
      ((hist.drop (hist.length - 3)).map (fun msg => msg.role ++ ": " ++ msg.content))
    refine ⟨promptHead defaultSchema dbPath ++ p ++ ("user" ++ ": "), promptMid, promptTail, ?_⟩
    have hctx : contextLines (hist ++ [mkUserTurn q t1]) = p ++ ("user" ++ ": " ++ q) := by
      rw [contextLines, hw, List.map_append]
      simpa [joinLines, mkUserTurn] using hp
    rw [promptForGeneration, buildSystemPrompt, hctx]
    simp [String.append_assoc]
